import Mathlib

/-!
Verification of the requirement/capability matching and document-assembly
pipeline of the proposal-writer repository.  Python strings are modelled as
`List Char`; the Python `str` primitives used by the code (`strip`, `lower`,
`split`, `replace`, `startswith`, `title`, `isupper`, substring `in`) are
embedded as structurally recursive functions on `List Char`.
-/

namespace ProposalWriter

/-- Whitespace characters removed by Python `str.strip()` (ASCII range). -/
def isPySpace (c : Char) : Bool :=
  c = ' ' || c = '\t' || c = '\n' || c = '\r' || c = '\x0b' || c = '\x0c'

/-- Python `s.strip()`. -/
def pyStrip (l : List Char) : List Char :=
  ((l.dropWhile isPySpace).reverse.dropWhile isPySpace).reverse

/-- Python `s.lower()` (ASCII letters). -/
def pyLower (l : List Char) : List Char := l.map Char.toLower

/-- Python `s.split(sep)` for a one-character separator; keeps empty parts. -/
def splitOnChar (sep : Char) : List Char → List (List Char)
  | [] => [[]]
  | c :: cs =>
    if c = sep then [] :: splitOnChar sep cs
    else
      match splitOnChar sep cs with
      | [] => [[c]]
      | h :: t => (c :: h) :: t

/-- Python `s.split(sep)` for a multi-character separator, written with
explicit fuel so that the recursion is structural; `fuel = l.length`
always suffices for a non-empty separator. -/
def splitOnSeqFuel (pat : List Char) : Nat → List Char → List (List Char)
  | _, [] => [[]]
  | 0, l => [l]
  | fuel + 1, c :: cs =>
    if pat.isPrefixOf (c :: cs) then
      [] :: splitOnSeqFuel pat fuel ((c :: cs).drop pat.length)
    else
      match splitOnSeqFuel pat fuel cs with
      | [] => [c :: cs]
      | h :: t => (c :: h) :: t

def pySplit (pat l : List Char) : List (List Char) := splitOnSeqFuel pat l.length l

/-- Python `s.replace(pat, rep)` (all occurrences), with fuel as above. -/
def replaceAllFuel (pat rep : List Char) : Nat → List Char → List Char
  | _, [] => []
  | 0, l => l
  | fuel + 1, c :: cs =>
    if pat.isPrefixOf (c :: cs) then
      rep ++ replaceAllFuel pat rep fuel ((c :: cs).drop pat.length)
    else
      c :: replaceAllFuel pat rep fuel cs

def pyReplace (l pat rep : List Char) : List Char := replaceAllFuel pat rep l.length l

/-- Python `pat in s` (substring test). -/
def containsSeq (pat : List Char) : List Char → Bool
  | [] => pat.isEmpty
  | c :: cs => pat.isPrefixOf (c :: cs) || containsSeq pat cs

/-- Python `s.title()` on ASCII letters: the first letter of each maximal
letter run is upper-cased, every later letter of the run lower-cased. -/
def pyTitleAux : Bool → List Char → List Char
  | _, [] => []
  | prevAlpha, c :: cs =>
    if c.isAlpha then
      (if prevAlpha then c.toLower else c.toUpper) :: pyTitleAux true cs
    else
      c :: pyTitleAux false cs

/-- Python `s.title()`. -/
def pyTitle (l : List Char) : List Char := pyTitleAux false l

/-- Python `s.isupper()`: at least one cased character and no lower-case one. -/
def pyIsUpper (l : List Char) : Bool :=
  l.any (fun c => c.isUpper || c.isLower) && l.all (fun c => !c.isLower)

/-! ### The matching parser (`GeminiService._parse_matching_table`) -/

/-- The four recognized line tags and the block delimiter. -/
def tagR : List Char := "REQUIREMENT:".data
def tagC : List Char := "CAPABILITY:".data
def tagM : List Char := "MATCH:".data
def tagN : List Char := "NOTES:".data
def delim : List Char := "---".data

/-- A parsed matching record (the dict appended to `matches`).  The source
dict key `match` is a Lean keyword, rendered here as `matchStrength`. -/
structure RequirementMatch where
  requirement : String
  capability : String
  matchStrength : String
  notes : String
deriving DecidableEq

/-- The partially filled `match_data` dict while scanning one block. -/
structure MatchData where
  requirement : Option (List Char)
  capability : Option (List Char)
  matchStrength : Option (List Char)
  notes : Option (List Char)
deriving DecidableEq

def emptyMD : MatchData := ⟨none, none, none, none⟩

/-- `line.replace(tag, '').strip()` — note: all occurrences removed. -/
def tagValue (tag line : List Char) : List Char := pyStrip (pyReplace line tag [])

/-- The synonym tables of the `MATCH:` branch. -/
def strong_synonyms : List (List Char) :=
  ["strong".data, "excellent".data, "high".data]
def medium_synonyms : List (List Char) :=
  ["medium".data, "moderate".data, "average".data, "adequate".data]
def weak_synonyms : List (List Char) :=
  ["weak".data, "low".data, "poor".data, "limited".data]
def none_synonyms : List (List Char) :=
  ["none".data, "missing".data, "no".data, "absent".data, "not available".data]

/-- The `MATCH:` branch of `_parse_matching_table`:
`match_strength = line.replace('MATCH:', '').strip().lower()` followed by
the synonym table, with `match_strength.title()` as the fallback. -/
def normalize_match (raw : List Char) : List Char :=
  let match_strength := pyLower (pyStrip raw)
  if strong_synonyms.contains match_strength then "Strong".data
  else if medium_synonyms.contains match_strength then "Medium".data
  else if weak_synonyms.contains match_strength then "Weak".data
  else if none_synonyms.contains match_strength then "None".data
  else pyTitle match_strength

/-- The body of the per-line loop of `_parse_matching_table`. -/
def process_line (md : MatchData) (line : List Char) : MatchData :=
  if tagR.isPrefixOf line then { md with requirement := some (tagValue tagR line) }
  else if tagC.isPrefixOf line then { md with capability := some (tagValue tagC line) }
  else if tagM.isPrefixOf line then
    { md with matchStrength := some (normalize_match (pyReplace line tagM [])) }
  else if tagN.isPrefixOf line then { md with notes := some (tagValue tagN line) }
  else md

/-- `match_data` after scanning the lines of `entry.strip().split('\n')`. -/
def block_fields (entry : List Char) : MatchData :=
  (splitOnChar '\n' (pyStrip entry)).foldl process_line emptyMD

/-- One iteration of the entry loop: the record appended for this block, if
both `requirement` and `match` were captured (defaults filled in). -/
def parse_block (entry : List Char) : Option RequirementMatch :=
  match (block_fields entry).requirement, (block_fields entry).matchStrength with
  | some r, some m =>
    some ⟨String.mk r,
          String.mk ((block_fields entry).capability.getD "Capability assessment pending".data),
          String.mk m,
          String.mk ((block_fields entry).notes.getD "No additional notes".data)⟩
  | _, _ => none

/-- `GeminiService._parse_matching_table`. -/
def parse_matching_table (response_text : String) : List RequirementMatch :=
  ((pySplit delim response_text.data).filter
    (fun e => !(pyStrip e).isEmpty)).filterMap parse_block

/-! ### The document assembler (`DocumentGenerator._parse_content_sections`) -/

/-- A classified line of generated content. -/
structure ContentSection where
  type : String
  text : String
deriving DecidableEq

/-- The keyword set of the heading test. -/
def heading_keywords : List (List Char) :=
  ["overview".data, "executive summary".data, "introduction".data, "conclusion".data,
   "requirements".data, "approach".data, "methodology".data, "timeline".data,
   "budget".data, "team".data]

/-- The marker tuple of the bullet test. -/
def bullet_markers : List (List Char) :=
  ["•".data, "-".data, "*".data, "1.".data, "2.".data, "3.".data, "4.".data, "5.".data]

/-- The heading condition of `_parse_content_sections`:
`len(line) < 100 and (line.isupper() or any(keyword in line.lower() ...))`. -/
def is_heading_line (line : List Char) : Bool :=
  decide (line.length < 100) &&
    (pyIsUpper line || heading_keywords.any (fun k => containsSeq k (pyLower line)))

/-- The bullet condition: `line.startswith(('•', '-', '*', '1.', ..., '5.'))`. -/
def is_bullet_line (line : List Char) : Bool :=
  bullet_markers.any (fun m => m.isPrefixOf line)

/-- The body of the per-line loop of `_parse_content_sections`: strip the
line, skip it when empty, else classify it as heading / bullet / paragraph. -/
def classify_line (raw : List Char) : Option ContentSection :=
  let line := pyStrip raw
  if line.isEmpty then none
  else if is_heading_line line then some ⟨"heading", String.mk line⟩
  else if is_bullet_line line then some ⟨"bullet", String.mk line⟩
  else some ⟨"paragraph", String.mk line⟩

/-- `DocumentGenerator._parse_content_sections` (the loop appends at most one
section per line of `content.split('\n')`). -/
def parse_content_sections (content : String) : List ContentSection :=
  (splitOnChar '\n' content.data).foldl
    (fun sections l => sections ++ (classify_line l).toList) []

/-! ### Model resolution (`GeminiService.__init__`) -/

/-- The fixed fallback list of known working models. -/
def fallback_models : List String :=
  ["gemini-2.0-flash", "gemini-1.5-flash", "gemini-1.5-pro", "gemini-1.0-pro",
   "models/gemini-1.5-flash", "models/gemini-1.5-pro", "models/gemini-1.0-pro"]

/-- `models_to_try = [model_name] + [m for m in fallback_models if m != model_name]`. -/
def models_to_try (model_name : String) : List String :=
  model_name :: fallback_models.filter (fun m => m != model_name)

/-- The candidate loop of `GeminiService.__init__`.  Binding a handle and
probing it with the `"Hello"` request are external effects; their joint
success on a candidate is abstracted as the oracle `ok`.  The result is the
ordered list of candidates actually attempted together with the model that
became active (`none` when every candidate failed). -/
def try_models (ok : String → Bool) : List String → List String × Option String
  | [] => ([], none)
  | m :: ms =>
    if ok m then ([m], some m)
    else
      let r := try_models ok ms
      (m :: r.1, r.2)

/-! ### Prompt builders

The four prompt templates are Python f-strings: a fixed text with the input
strings interpolated.  The fixed segments below are copied byte-for-byte
from the source (the segment before each interpolation point, between two
interpolation points, and the common text after the last one). -/

def analyze_rfp_pre : String :=
  "\n        You are an expert RFP analyst with deep experience in understanding and breaking down Request for Proposal documents across various industries and project types.\n        \n        Please analyze the following RFP content and extract the key requirements, deliverables, and evaluation criteria in a well-structured format.\n        \n        Structure your response with these clear sections:\n        \n        **1. PROJECT OVERVIEW**\n        - Brief summary of the project scope and objectives\n        - Target timeline and key milestones\n        - Budget range (if mentioned)\n        \n        **2. MANDATORY REQUIREMENTS**\n        - Technical specifications that must be met\n        - Compliance and certification requirements\n        - Minimum experience or qualification thresholds\n        \n        **3. DELIVERABLES EXPECTED**\n        - Specific outputs, products, or services required\n        - Documentation and reporting requirements\n        - Implementation and support expectations\n        \n        **4. EVALUATION CRITERIA**\n        - How proposals will be scored and weighted\n        - Key decision factors and priorities\n        - Submission requirements and deadlines\n        \n        **5. TECHNICAL SPECIFICATIONS**\n        - Detailed technical requirements\n        - Integration needs and constraints\n        - Performance and scalability expectations\n        \n        **6. ORGANIZATIONAL REQUIREMENTS**\n        - Team composition and expertise needed\n        - Past experience demonstrations required\n        - References and case studies expected\n        \n        Be thorough but concise. Focus on actionable requirements that a responding organization needs to address. Use bullet points for clarity within each section.\n        \n        RFP Content:\n        "

def analyze_organization_pre : String :=
  "\n        You are an expert business analyst specializing in organizational capability assessment for competitive proposal responses.\n        \n        Analyze the following organization document and extract key information in these structured categories:\n        \n        **1. COMPANY PROFILE**\n        - Company size, structure, and years in business\n        - Mission, vision, and core values\n        - Market position and competitive advantages\n        \n        **2. CORE COMPETENCIES & SERVICES**\n        - Primary business areas and specializations\n        - Service offerings and product portfolio\n        - Unique methodologies or approaches\n        \n        **3. TECHNICAL CAPABILITIES**\n        - Technology platforms and tools expertise\n        - Development methodologies and frameworks\n        - Infrastructure and technical resources\n        \n        **4. EXPERIENCE & TRACK RECORD**\n        - Relevant past projects and client engagements\n        - Industry-specific experience\n        - Project scale and complexity handled\n        \n        **5. TEAM EXPERTISE**\n        - Key personnel qualifications and experience\n        - Team structure and roles\n        - Professional certifications and credentials\n        \n        **6. CERTIFICATIONS & QUALIFICATIONS**\n        - Industry certifications and standards compliance\n        - Quality management systems\n        - Security clearances and compliance frameworks\n        \n        **7. DIFFERENTIATORS & VALUE PROPOSITIONS**\n        - What sets this organization apart from competitors\n        - Innovation capabilities and thought leadership\n        - Client success stories and testimonials\n        \n        Focus on extracting information that would be directly relevant for crafting compelling RFP responses.\n        \n        Organization Content:\n        "

def create_matching_table_pre : String :=
  "\n        As an expert proposal strategist, create a comprehensive matching analysis between the RFP requirements and organization capabilities.\n        \n        IMPORTANT INSTRUCTIONS:\n        1. Extract ALL significant requirements from the RFP - aim for 10-15 distinct requirements\n        2. For each requirement, provide a detailed assessment of organizational fit\n        3. Use precise match strength ratings: Strong/Medium/Weak/None\n        4. Include strategic recommendations for addressing gaps\n        5. Prioritize requirements by criticality to RFP success\n        \n        MATCH STRENGTH DEFINITIONS:\n        - **Strong**: Organization has proven track record and excellent capabilities\n        - **Medium**: Organization has relevant experience but may need some enhancement\n        - **Weak**: Organization has limited relevant experience or capabilities\n        - **None**: No corresponding organizational capability identified\n        \n        For each requirement, provide:\n        - Clear requirement statement from RFP\n        - Specific organizational capability or experience that addresses it\n        - Match strength with brief justification\n        - Strategic notes on how to strengthen the response\n        \n        Format each entry exactly as:\n        REQUIREMENT: [specific requirement from RFP]\n        CAPABILITY: [detailed organizational capability or \"No corresponding capability identified\"]\n        MATCH: [Strong/Medium/Weak/None]\n        NOTES: [strategic recommendations, gap analysis, or enhancement suggestions]\n        ---\n        \n        Ensure comprehensive coverage of technical, operational, experience, compliance, and delivery requirements.\n        \n        RFP Requirements:\n        "

def create_matching_table_mid : String :=
  "\n        \n        Organization Analysis:\n        "

def generate_response_prompt_pre : String :=
  "\n        As an expert proposal writer with extensive experience in creating winning RFP responses, generate a comprehensive prompt that will produce a professional, compelling, and complete RFP response.\n        \n        The prompt should guide the creation of a response that:\n        \n        **STRATEGIC ELEMENTS:**\n        - Demonstrates clear understanding of client needs and challenges\n        - Positions the organization as the ideal partner\n        - Addresses all mandatory requirements comprehensively\n        - Highlights unique value propositions and differentiators\n        \n        **STRUCTURAL REQUIREMENTS:**\n        - Follows professional RFP response format and best practices\n        - Includes executive summary, technical approach, and implementation plan\n        - Provides specific examples, case studies, and quantifiable benefits\n        - Addresses evaluation criteria with targeted responses\n        \n        **CONTENT GUIDELINES:**\n        - Use persuasive but professional tone\n        - Include specific methodologies and frameworks\n        - Provide detailed project timeline and milestones\n        - Address risk mitigation and quality assurance\n        - Include team qualifications and organizational credentials\n        \n        Create a detailed prompt that will generate a complete, professional RFP response document that maximizes the chances of winning the contract.\n        \n        The prompt should be comprehensive enough to produce a response of 2000-4000 words covering all critical aspects.\n        \n        RFP Requirements:\n        "

def generate_response_prompt_mid : String :=
  "\n        \n        Organization Analysis:\n        "

def prompt_tail : String :=
  "\n        "

/-- The prompt built by `GeminiService.analyze_rfp`. -/
def analyze_rfp_prompt (rfp_content : String) : String :=
  analyze_rfp_pre ++ rfp_content ++ prompt_tail

/-- The prompt built by `GeminiService.analyze_organization`. -/
def analyze_organization_prompt (org_content : String) : String :=
  analyze_organization_pre ++ org_content ++ prompt_tail

/-- The prompt built by `GeminiService.create_matching_table`. -/
def create_matching_table_prompt (rfp_requirements org_analysis : String) : String :=
  create_matching_table_pre ++ rfp_requirements ++ create_matching_table_mid
    ++ org_analysis ++ prompt_tail

/-- The prompt built by `GeminiService.generate_response_prompt`. -/
def generate_response_prompt_text (rfp_requirements org_analysis : String) : String :=
  generate_response_prompt_pre ++ rfp_requirements ++ generate_response_prompt_mid
    ++ org_analysis ++ prompt_tail

/-! ### Helper lemmas -/

theorem mem_of_getLast?_eq_some {α : Type} : ∀ {l : List α} {a : α},
    l.getLast? = some a → a ∈ l
  | [], _, h => by simp at h
  | [x], a, h => by
      simp [List.getLast?] at h
      simp [h]
  | x :: y :: ys, a, h => by
      rw [List.getLast?_cons_cons] at h
      exact List.mem_cons_of_mem _ (mem_of_getLast?_eq_some h)

/-- Two candidate prefixes with different first characters cannot both be
prefixes of the same line. -/
theorem first_char_excl {a b : Char} {as bs l : List Char} (hab : a ≠ b)
    (h : List.isPrefixOf (a :: as) l = true) : List.isPrefixOf (b :: bs) l = false := by
  cases l with
  | nil => simp [List.isPrefixOf] at h
  | cons c cs =>
    simp only [List.isPrefixOf, Bool.and_eq_true, beq_iff_eq] at h
    have hbc : (b == c) = false := by
      simp only [beq_eq_false_iff_ne, ne_eq]
      intro e
      exact hab (h.1.trans e.symm)
    simp [List.isPrefixOf, hbc]

theorem tagR_cons : tagR = 'R' :: "EQUIREMENT:".data := rfl
theorem tagC_cons : tagC = 'C' :: "APABILITY:".data := rfl
theorem tagM_cons : tagM = 'M' :: "ATCH:".data := rfl
theorem tagN_cons : tagN = 'N' :: "OTES:".data := rfl

theorem not_tagR_of_tagC {line : List Char} (h : tagC.isPrefixOf line = true) :
    tagR.isPrefixOf line = false := by
  rw [tagC_cons] at h
  rw [tagR_cons]
  exact first_char_excl (by decide) h

theorem not_tagR_of_tagM {line : List Char} (h : tagM.isPrefixOf line = true) :
    tagR.isPrefixOf line = false := by
  rw [tagM_cons] at h
  rw [tagR_cons]
  exact first_char_excl (by decide) h

theorem not_tagC_of_tagM {line : List Char} (h : tagM.isPrefixOf line = true) :
    tagC.isPrefixOf line = false := by
  rw [tagM_cons] at h
  rw [tagC_cons]
  exact first_char_excl (by decide) h

theorem not_tagR_of_tagN {line : List Char} (h : tagN.isPrefixOf line = true) :
    tagR.isPrefixOf line = false := by
  rw [tagN_cons] at h
  rw [tagR_cons]
  exact first_char_excl (by decide) h

theorem not_tagC_of_tagN {line : List Char} (h : tagN.isPrefixOf line = true) :
    tagC.isPrefixOf line = false := by
  rw [tagN_cons] at h
  rw [tagC_cons]
  exact first_char_excl (by decide) h

theorem not_tagM_of_tagN {line : List Char} (h : tagN.isPrefixOf line = true) :
    tagM.isPrefixOf line = false := by
  rw [tagN_cons] at h
  rw [tagM_cons]
  exact first_char_excl (by decide) h

theorem process_line_requirement (md : MatchData) (line : List Char) :
    (process_line md line).requirement =
      if tagR.isPrefixOf line then some (tagValue tagR line) else md.requirement := by
  unfold process_line
  split_ifs <;> rfl

theorem process_line_capability (md : MatchData) (line : List Char) :
    (process_line md line).capability =
      if tagC.isPrefixOf line then some (tagValue tagC line) else md.capability := by
  by_cases hC : tagC.isPrefixOf line = true
  · have hR := not_tagR_of_tagC hC
    simp [process_line, hR, hC]
  · simp only [process_line, if_neg hC]
    split_ifs <;> rfl

theorem process_line_match (md : MatchData) (line : List Char) :
    (process_line md line).matchStrength =
      if tagM.isPrefixOf line then some (normalize_match (pyReplace line tagM []))
      else md.matchStrength := by
  by_cases hM : tagM.isPrefixOf line = true
  · have hR := not_tagR_of_tagM hM
    have hC := not_tagC_of_tagM hM
    simp [process_line, hR, hC, hM]
  · simp only [process_line, if_neg hM]
    split_ifs <;> rfl

theorem process_line_notes (md : MatchData) (line : List Char) :
    (process_line md line).notes =
      if tagN.isPrefixOf line then some (tagValue tagN line) else md.notes := by
  by_cases hN : tagN.isPrefixOf line = true
  · have hR := not_tagR_of_tagN hN
    have hC := not_tagC_of_tagN hN
    have hM := not_tagM_of_tagN hN
    simp [process_line, hR, hC, hM, hN]
  · simp only [process_line, if_neg hN]
    split_ifs <;> rfl

/-- A field of the accumulated `match_data` holds the value extracted from the
last line carrying the corresponding tag, and the initial value when no line
carries it. -/
theorem foldl_field_last (f : MatchData → Option (List Char)) (p : List Char → Bool)
    (v : List Char → List Char)
    (hf : ∀ md l, f (process_line md l) = if p l then some (v l) else f md) :
    ∀ (lines : List (List Char)) (init : MatchData),
      f (lines.foldl process_line init) =
        match (lines.filter p).getLast? with
        | some l => some (v l)
        | none => f init := by
  intro lines
  induction lines with
  | nil => intro init; rfl
  | cons l ls ih =>
    intro init
    rw [List.foldl_cons, ih, List.filter_cons]
    by_cases hp : p l
    · simp only [hp, if_true]
      cases hfl : ls.filter p with
      | nil => simp [hfl, hf, hp]
      | cons x xs =>
        rw [List.getLast?_cons_cons]
        cases h2 : (x :: xs).getLast? with
        | some y => rfl
        | none => exact absurd (List.getLast?_eq_none_iff.mp h2) (by simp)
    · simp only [hp, if_false, hf, Bool.false_eq_true]

theorem block_requirement (entry : List Char) :
    (block_fields entry).requirement =
      match ((splitOnChar '\n' (pyStrip entry)).filter
          (fun l => tagR.isPrefixOf l)).getLast? with
      | some l => some (tagValue tagR l)
      | none => none :=
  foldl_field_last MatchData.requirement _ _ process_line_requirement _ emptyMD

theorem block_capability (entry : List Char) :
    (block_fields entry).capability =
      match ((splitOnChar '\n' (pyStrip entry)).filter
          (fun l => tagC.isPrefixOf l)).getLast? with
      | some l => some (tagValue tagC l)
      | none => none :=
  foldl_field_last MatchData.capability _ _ process_line_capability _ emptyMD

theorem block_match (entry : List Char) :
    (block_fields entry).matchStrength =
      match ((splitOnChar '\n' (pyStrip entry)).filter
          (fun l => tagM.isPrefixOf l)).getLast? with
      | some l => some (normalize_match (pyReplace l tagM []))
      | none => none :=
  foldl_field_last MatchData.matchStrength _ _ process_line_match _ emptyMD

theorem block_notes (entry : List Char) :
    (block_fields entry).notes =
      match ((splitOnChar '\n' (pyStrip entry)).filter
          (fun l => tagN.isPrefixOf l)).getLast? with
      | some l => some (tagValue tagN l)
      | none => none :=
  foldl_field_last MatchData.notes _ _ process_line_notes _ emptyMD

/-- Splitting on a delimiter that does not occur in the text returns the
whole text as the single part. -/
theorem splitOnSeqFuel_of_not_contains (pat : List Char) :
    ∀ l : List Char, containsSeq pat l = false →
      splitOnSeqFuel pat l.length l = [l] := by
  intro l
  induction l with
  | nil => intro _; rfl
  | cons c cs ih =>
    intro h
    simp only [containsSeq, Bool.or_eq_false_iff] at h
    simp only [List.length_cons, splitOnSeqFuel, h.1, Bool.false_eq_true, if_false,
      ih h.2]

theorem parse_block_strip_empty {e : List Char} (h : pyStrip e = []) :
    parse_block e = none := by
  have hb : block_fields e = emptyMD := by
    unfold block_fields
    rw [h]
    decide
  unfold parse_block
  rw [hb]
  rfl

theorem parse_no_delim (s : String) (h : containsSeq delim s.data = false) :
    parse_matching_table s = (parse_block s.data).toList := by
  unfold parse_matching_table pySplit
  rw [splitOnSeqFuel_of_not_contains delim s.data h]
  by_cases he : (pyStrip s.data).isEmpty = true
  · have hn := parse_block_strip_empty (List.isEmpty_iff.mp he)
    simp [List.filter_cons, he, hn]
  · cases hp : parse_block s.data <;>
      simp [List.filter_cons, he, List.filterMap_cons, hp]

theorem filter_ne_nil_iff {α : Type} (p : α → Bool) (L : List α) :
    L.filter p ≠ [] ↔ ∃ l ∈ L, p l = true := by
  rw [Ne, List.filter_eq_nil_iff]
  push_neg
  simp

theorem block_requirement_isSome_iff (e : List Char) :
    (block_fields e).requirement.isSome = true ↔
      ∃ l ∈ splitOnChar '\n' (pyStrip e), tagR.isPrefixOf l = true := by
  rw [block_requirement,
    ← filter_ne_nil_iff (fun l => tagR.isPrefixOf l) (splitOnChar '\n' (pyStrip e)),
    Ne, ← List.getLast?_eq_none_iff]
  cases ((splitOnChar '\n' (pyStrip e)).filter (fun l => tagR.isPrefixOf l)).getLast? <;>
    simp

theorem block_match_isSome_iff (e : List Char) :
    (block_fields e).matchStrength.isSome = true ↔
      ∃ l ∈ splitOnChar '\n' (pyStrip e), tagM.isPrefixOf l = true := by
  rw [block_match,
    ← filter_ne_nil_iff (fun l => tagM.isPrefixOf l) (splitOnChar '\n' (pyStrip e)),
    Ne, ← List.getLast?_eq_none_iff]
  cases ((splitOnChar '\n' (pyStrip e)).filter (fun l => tagM.isPrefixOf l)).getLast? <;>
    simp

theorem parse_block_isSome_iff (e : List Char) :
    (parse_block e).isSome = true ↔
      ((block_fields e).requirement.isSome = true
        ∧ (block_fields e).matchStrength.isSome = true) := by
  unfold parse_block
  cases (block_fields e).requirement <;> cases (block_fields e).matchStrength <;> simp

theorem try_models_characterization (ok : String → Bool) :
    ∀ l : List String,
      try_models ok l = (l.takeWhile (fun m => !ok m) ++ (l.find? ok).toList, l.find? ok) := by
  intro l
  induction l with
  | nil => rfl
  | cons m ms ih =>
    by_cases h : ok m = true
    · simp [try_models, h, List.takeWhile_cons, List.find?_cons]
    · simp only [Bool.not_eq_true] at h
      simp [try_models, h, List.takeWhile_cons, List.find?_cons, ih]

theorem foldl_append_toList_eq_filterMap {α β : Type} (f : α → Option β) :
    ∀ (L : List α) (acc : List β),
      L.foldl (fun s l => s ++ (f l).toList) acc = acc ++ L.filterMap f := by
  intro L
  induction L with
  | nil => intro acc; simp
  | cons x xs ih =>
    intro acc
    rw [List.foldl_cons, ih, List.filterMap_cons]
    cases f x <;> simp

/-! ### The claims -/

set_option maxRecDepth 8192 in
/-- C1: the scenario reply with two `---`-separated blocks parses to exactly
two records, in block order: the first with all four fields captured and
`excellent` normalized to `Strong`, the second with defaulted capability and
notes and `no` normalized to `None`. -/
theorem c1_scenario_two_blocks :
    parse_matching_table
      "REQUIREMENT: Must support SSO\nCAPABILITY: Has SAML integration\nMATCH: excellent\nNOTES: none\n---\nREQUIREMENT: 24/7 support\nMATCH: no\n---"
      = [⟨"Must support SSO", "Has SAML integration", "Strong", "none"⟩,
         ⟨"24/7 support", "Capability assessment pending", "None", "No additional notes"⟩] := by
  decide

/-- C7: the matching parser is a total function from reply strings to
(possibly empty) record lists — no input makes it fail; in particular the
empty reply and an untagged reply both yield the empty list. -/
theorem c7_parser_total :
    (∀ s : String, ∃ l : List RequirementMatch, parse_matching_table s = l)
    ∧ parse_matching_table "" = []
    ∧ parse_matching_table "malformed reply with no tags" = [] :=
  ⟨fun _ => ⟨_, rfl⟩, by decide, by decide⟩

/-- C5: the candidate list is the preferred name followed by the fixed
fallback list with entries equal to the preferred name removed, in order;
the trial loop attempts candidates in order, every candidate before the
first success fails, the first success becomes the active model, and no
candidate after it is attempted (the attempted list is the failing prefix
followed by the first success). -/
theorem c5_model_resolution (ok : String → Bool) (model_name : String) :
    models_to_try model_name
        = model_name :: fallback_models.filter (fun m => m != model_name)
    ∧ try_models ok (models_to_try model_name)
        = ((models_to_try model_name).takeWhile (fun m => !ok m)
            ++ ((models_to_try model_name).find? ok).toList,
           (models_to_try model_name).find? ok)
    ∧ (∀ m, (models_to_try model_name).find? ok = some m → ok m = true) :=
  ⟨rfl, try_models_characterization ok _, fun _ h => List.find?_some h⟩

/-- Witness for C5: with preferred `gemini-x` and only `gemini-1.5-pro`
passing the probe, the attempted candidates are exactly the failing prefix
followed by `gemini-1.5-pro`, which becomes the active model. -/
theorem c5_model_resolution_witness :
    try_models (fun s => s == "gemini-1.5-pro") (models_to_try "gemini-x")
      = (["gemini-x", "gemini-2.0-flash", "gemini-1.5-flash", "gemini-1.5-pro"],
         some "gemini-1.5-pro")
    ∧ ((fun s : String => s == "gemini-1.5-pro") "gemini-1.5-pro" = true) := by
  obtain ⟨h1, h2, h3⟩ :=
    c5_model_resolution (fun s => s == "gemini-1.5-pro") "gemini-x"
  refine ⟨?_, h3 "gemini-1.5-pro" (by decide)⟩
  rw [h2]
  decide

/-- C8: each prompt builder is a pure deterministic function of its text
inputs (identical inputs give byte-identical prompts), and each input string
appears untruncated, as a contiguous substring, in the built prompt. -/
theorem c8_prompt_builders :
    (∀ a b : String, a = b → analyze_rfp_prompt a = analyze_rfp_prompt b)
    ∧ (∀ a b : String, a = b → analyze_organization_prompt a = analyze_organization_prompt b)
    ∧ (∀ a b a2 b2 : String, a = a2 → b = b2 →
        create_matching_table_prompt a b = create_matching_table_prompt a2 b2)
    ∧ (∀ a b a2 b2 : String, a = a2 → b = b2 →
        generate_response_prompt_text a b = generate_response_prompt_text a2 b2)
    ∧ (∀ a : String, ∃ pre post, analyze_rfp_prompt a = pre ++ a ++ post)
    ∧ (∀ a : String, ∃ pre post, analyze_organization_prompt a = pre ++ a ++ post)
    ∧ (∀ a b : String, ∃ pre mid post,
        create_matching_table_prompt a b = pre ++ a ++ mid ++ b ++ post)
    ∧ (∀ a b : String, ∃ pre mid post,
        generate_response_prompt_text a b = pre ++ a ++ mid ++ b ++ post) := by
  refine ⟨?_, ?_, ?_, ?_, ?_, ?_, ?_, ?_⟩
  · intro a b h; rw [h]
  · intro a b h; rw [h]
  · intro a b a2 b2 h h2; rw [h, h2]
  · intro a b a2 b2 h h2; rw [h, h2]
  · intro a; exact ⟨analyze_rfp_pre, prompt_tail, rfl⟩
  · intro a; exact ⟨analyze_organization_pre, prompt_tail, rfl⟩
  · intro a b; exact ⟨create_matching_table_pre, create_matching_table_mid, prompt_tail, rfl⟩
  · intro a b;
    exact ⟨generate_response_prompt_pre, generate_response_prompt_mid, prompt_tail, rfl⟩

/-- Witness for C8: the determinism statements applied at concrete inputs. -/
theorem c8_prompt_builders_witness :
    analyze_rfp_prompt "RFP text" = analyze_rfp_prompt "RFP text"
    ∧ analyze_organization_prompt "ORG text" = analyze_organization_prompt "ORG text"
    ∧ create_matching_table_prompt "R" "O" = create_matching_table_prompt "R" "O"
    ∧ generate_response_prompt_text "R" "O" = generate_response_prompt_text "R" "O" :=
  ⟨c8_prompt_builders.1 _ _ rfl, c8_prompt_builders.2.1 _ _ rfl,
   c8_prompt_builders.2.2.1 _ _ _ _ rfl rfl, c8_prompt_builders.2.2.2.1 _ _ _ _ rfl rfl⟩

theorem contains_eq_false_of_not_mem {α : Type} [BEq α] [LawfulBEq α] {l : List α} {a : α}
    (h : a ∉ l) : l.contains a = false := by
  cases hc : l.contains a with
  | false => rfl
  | true => exact absurd (List.mem_of_elem_eq_true hc) h

/-- C2: match-strength normalization maps (after trim and lower-casing)
the synonym sets {strong, excellent, high} to `Strong`, {medium, moderate,
average, adequate} to `Medium`, {weak, low, poor, limited} to `Weak`,
{none, missing, no, absent, not available} to `None`, and any other value to
its title-cased form rather than failing; a `MATCH:`-tagged line always
stores the normalized value. -/
theorem c2_match_normalization (v : List Char) :
    (pyLower (pyStrip v) ∈ strong_synonyms → normalize_match v = "Strong".data)
    ∧ (pyLower (pyStrip v) ∈ medium_synonyms → normalize_match v = "Medium".data)
    ∧ (pyLower (pyStrip v) ∈ weak_synonyms → normalize_match v = "Weak".data)
    ∧ (pyLower (pyStrip v) ∈ none_synonyms → normalize_match v = "None".data)
    ∧ (pyLower (pyStrip v) ∉ strong_synonyms → pyLower (pyStrip v) ∉ medium_synonyms →
        pyLower (pyStrip v) ∉ weak_synonyms → pyLower (pyStrip v) ∉ none_synonyms →
        normalize_match v = pyTitle (pyLower (pyStrip v)))
    ∧ (∀ (md : MatchData) (line : List Char), tagM.isPrefixOf line = true →
        (process_line md line).matchStrength
          = some (normalize_match (pyReplace line tagM []))) := by
  refine ⟨?_, ?_, ?_, ?_, ?_, ?_⟩
  · intro h
    simp only [strong_synonyms, List.mem_cons, List.not_mem_nil, or_false] at h
    rcases h with h | h | h <;> (simp only [normalize_match]; rw [h]; decide)
  · intro h
    simp only [medium_synonyms, List.mem_cons, List.not_mem_nil, or_false] at h
    rcases h with h | h | h | h <;> (simp only [normalize_match]; rw [h]; decide)
  · intro h
    simp only [weak_synonyms, List.mem_cons, List.not_mem_nil, or_false] at h
    rcases h with h | h | h | h <;> (simp only [normalize_match]; rw [h]; decide)
  · intro h
    simp only [none_synonyms, List.mem_cons, List.not_mem_nil, or_false] at h
    rcases h with h | h | h | h | h <;> (simp only [normalize_match]; rw [h]; decide)
  · intro h1 h2 h3 h4
    have c1 := contains_eq_false_of_not_mem h1
    have c2 := contains_eq_false_of_not_mem h2
    have c3 := contains_eq_false_of_not_mem h3
    have c4 := contains_eq_false_of_not_mem h4
    simp only [normalize_match, c1, c2, c3, c4, Bool.false_eq_true, if_false]
  · intro md line h
    rw [process_line_match, if_pos h]

/-- Witness for C2: one concrete value through each branch of the synonym
table, and a concrete `MATCH:` line. -/
theorem c2_match_normalization_witness :
    normalize_match "excellent".data = "Strong".data
    ∧ normalize_match " Adequate ".data = "Medium".data
    ∧ normalize_match "LIMITED".data = "Weak".data
    ∧ normalize_match "not available".data = "None".data
    ∧ normalize_match "partial".data = pyTitle (pyLower (pyStrip "partial".data))
    ∧ (process_line emptyMD "MATCH: high".data).matchStrength
        = some (normalize_match (pyReplace "MATCH: high".data tagM [])) :=
  ⟨(c2_match_normalization _).1 (by decide),
   (c2_match_normalization _).2.1 (by decide),
   (c2_match_normalization _).2.2.1 (by decide),
   (c2_match_normalization _).2.2.2.1 (by decide),
   (c2_match_normalization _).2.2.2.2.1 (by decide) (by decide) (by decide) (by decide),
   (c2_match_normalization []).2.2.2.2.2 emptyMD "MATCH: high".data (by decide)⟩

/-- C3 counterexample: a block whose `REQUIREMENT:` line carries an empty
value still yields a record — its requirement field is the empty string,
contradicting the claim that every emitted record has a non-empty
requirement. -/
theorem c3_counterexample :
    (parse_matching_table "REQUIREMENT:\nMATCH: strong").map RequirementMatch.requirement
      = [""] := by
  decide

/-- C3 (amended): a block none of whose lines starts with `REQUIREMENT:`
yields no record (the parser only checks that the `requirement` key was
captured, not that its value is non-empty). -/
theorem c3_no_requirement_line_no_record (entry : List Char)
    (h : ∀ l ∈ splitOnChar '\n' (pyStrip entry), ¬ tagR.isPrefixOf l = true) :
    parse_block entry = none := by
  have hreq : (block_fields entry).requirement = none := by
    rw [block_requirement]
    rw [List.filter_eq_nil_iff.mpr h]
    rfl
  unfold parse_block
  rw [hreq]

/-- Witness for C3: a concrete block with `CAPABILITY:` and `MATCH:` lines
but no `REQUIREMENT:` line yields no record. -/
theorem c3_no_requirement_line_witness :
    parse_block "CAPABILITY: x\nMATCH: strong".data = none :=
  c3_no_requirement_line_no_record _ (by decide)

set_option maxRecDepth 8192 in
/-- C4 counterexample: `replace` removes every occurrence of the tag, not
just the leading one — in the block
`REQUIREMENT: A / MATCH: strong / NOTES: see NOTES: above` the stored notes
value is `"see  above"`, not the claimed `"see NOTES: above"`. -/
theorem c4_counterexample :
    (parse_matching_table "REQUIREMENT: A\nMATCH: strong\nNOTES: see NOTES: above").map
        RequirementMatch.notes
      = ["see  above"]
    ∧ ("see  above" : String) ≠ "see NOTES: above" := by
  constructor
  · decide
  · decide

/-- C4 (amended): a line starting with a recognized tag stores, under the
corresponding field, the line with every occurrence of that tag removed and
the result trimmed (`line.replace(tag, '').strip()`) — so a later occurrence
of the same tag inside the value is deleted as well; a line starting with no
recognized tag contributes nothing to any field. -/
theorem c4_tag_line_extraction (md : MatchData) (line : List Char) :
    (tagR.isPrefixOf line = true →
      (process_line md line).requirement = some (pyStrip (pyReplace line tagR [])))
    ∧ (tagC.isPrefixOf line = true →
      (process_line md line).capability = some (pyStrip (pyReplace line tagC [])))
    ∧ (tagM.isPrefixOf line = true →
      (process_line md line).matchStrength = some (normalize_match (pyReplace line tagM [])))
    ∧ (tagN.isPrefixOf line = true →
      (process_line md line).notes = some (pyStrip (pyReplace line tagN [])))
    ∧ (tagR.isPrefixOf line = false → tagC.isPrefixOf line = false →
        tagM.isPrefixOf line = false → tagN.isPrefixOf line = false →
        process_line md line = md) := by
  refine ⟨?_, ?_, ?_, ?_, ?_⟩
  · intro h; rw [process_line_requirement, if_pos h]; rfl
  · intro h; rw [process_line_capability, if_pos h]; rfl
  · intro h; rw [process_line_match, if_pos h]
  · intro h; rw [process_line_notes, if_pos h]; rfl
  · intro h1 h2 h3 h4; simp [process_line, h1, h2, h3, h4]

/-- Witness for C4: concrete tagged lines for three fields and one untagged
line. -/
theorem c4_tag_line_extraction_witness :
    (process_line emptyMD "REQUIREMENT: Must support SSO".data).requirement
      = some (pyStrip (pyReplace "REQUIREMENT: Must support SSO".data tagR []))
    ∧ (process_line emptyMD "CAPABILITY: Has SAML".data).capability
      = some (pyStrip (pyReplace "CAPABILITY: Has SAML".data tagC []))
    ∧ (process_line emptyMD "NOTES: see NOTES: above".data).notes
      = some (pyStrip (pyReplace "NOTES: see NOTES: above".data tagN []))
    ∧ process_line emptyMD "no tag here".data = emptyMD :=
  ⟨(c4_tag_line_extraction _ _).1 (by decide),
   (c4_tag_line_extraction _ _).2.1 (by decide),
   (c4_tag_line_extraction _ _).2.2.2.1 (by decide),
   (c4_tag_line_extraction _ _).2.2.2.2 (by decide) (by decide) (by decide) (by decide)⟩

/-- C10: when a block repeats a recognized tag on several lines, the emitted
record stores the value extracted from the last such line — later tagged
lines overwrite earlier ones, with no concatenation and no error. -/
theorem c10_duplicate_tag_last_wins (entry : List Char) (r : RequirementMatch)
    (hr : parse_block entry = some r) :
    (∀ l, ((splitOnChar '\n' (pyStrip entry)).filter
          (fun l => tagR.isPrefixOf l)).getLast? = some l →
        r.requirement = String.mk (tagValue tagR l))
    ∧ (∀ l, ((splitOnChar '\n' (pyStrip entry)).filter
          (fun l => tagC.isPrefixOf l)).getLast? = some l →
        r.capability = String.mk (tagValue tagC l))
    ∧ (∀ l, ((splitOnChar '\n' (pyStrip entry)).filter
          (fun l => tagM.isPrefixOf l)).getLast? = some l →
        r.matchStrength = String.mk (normalize_match (pyReplace l tagM [])))
    ∧ (∀ l, ((splitOnChar '\n' (pyStrip entry)).filter
          (fun l => tagN.isPrefixOf l)).getLast? = some l →
        r.notes = String.mk (tagValue tagN l)) := by
  unfold parse_block at hr
  cases hrq : (block_fields entry).requirement with
  | none => rw [hrq] at hr; exact absurd hr (by simp)
  | some rv =>
    cases hms : (block_fields entry).matchStrength with
    | none => rw [hrq, hms] at hr; exact absurd hr (by simp)
    | some mv =>
      rw [hrq, hms] at hr
      injection hr with hr
      subst hr
      refine ⟨?_, ?_, ?_, ?_⟩
      · intro l hl
        have hb := block_requirement entry
        rw [hl, hrq] at hb
        injection hb with hb
        simp [hb]
      · intro l hl
        have hb := block_capability entry
        rw [hl] at hb
        simp [hb]
      · intro l hl
        have hb := block_match entry
        rw [hl, hms] at hb
        injection hb with hb
        simp [hb]
      · intro l hl
        have hb := block_notes entry
        rw [hl] at hb
        simp [hb]

set_option maxRecDepth 8192 in
/-- Witness for C10: a block repeating all four tags; the record holds the
values of the respective last lines. -/
theorem c10_duplicate_tag_last_wins_witness :
    (⟨"b", "d", "Weak", "y"⟩ : RequirementMatch).requirement
        = String.mk (tagValue tagR "REQUIREMENT: b".data)
    ∧ (⟨"b", "d", "Weak", "y"⟩ : RequirementMatch).matchStrength
        = String.mk (normalize_match (pyReplace "MATCH: weak".data tagM [])) := by
  have h := c10_duplicate_tag_last_wins
    "REQUIREMENT: a\nREQUIREMENT: b\nCAPABILITY: c\nCAPABILITY: d\nMATCH: strong\nMATCH: weak\nNOTES: x\nNOTES: y".data
    ⟨"b", "d", "Weak", "y"⟩ (by decide)
  exact ⟨h.1 _ (by decide), h.2.2.1 _ (by decide)⟩

/-- C9: a reply with no `---` delimiter is parsed as one single block, so it
yields at most one record — exactly one iff the reply contains a
`REQUIREMENT:`-tagged line and a `MATCH:`-tagged line. -/
theorem c9_no_delimiter (s : String) (h : containsSeq delim s.data = false) :
    parse_matching_table s = (parse_block s.data).toList
    ∧ (parse_matching_table s).length ≤ 1
    ∧ (parse_matching_table s ≠ [] ↔
        ((∃ l ∈ splitOnChar '\n' (pyStrip s.data), tagR.isPrefixOf l = true)
          ∧ (∃ l ∈ splitOnChar '\n' (pyStrip s.data), tagM.isPrefixOf l = true))) := by
  have h1 := parse_no_delim s h
  refine ⟨h1, ?_, ?_⟩
  · rw [h1]; cases parse_block s.data <;> simp
  · rw [h1, ← block_requirement_isSome_iff, ← block_match_isSome_iff,
      ← parse_block_isSome_iff]
    cases parse_block s.data <;> simp

/-- Witness for C9: a delimiter-free, well-tagged reply parses to the single
block's record. -/
theorem c9_no_delimiter_witness :
    parse_matching_table "REQUIREMENT: a\nMATCH: strong"
      = (parse_block ("REQUIREMENT: a\nMATCH: strong" : String).data).toList
    ∧ (parse_matching_table "REQUIREMENT: a\nMATCH: strong").length ≤ 1 := by
  have h := c9_no_delimiter "REQUIREMENT: a\nMATCH: strong" (by decide)
  exact ⟨h.1, h.2.1⟩

/-- C6: the document assembler classifies lines independently, in priority
order (blank after trim → skipped; trimmed length under 100 and fully
upper-case or containing a heading keyword → heading; starting with a bullet
marker → bullet; otherwise paragraph), each section keeping the stripped
line text verbatim; and the three scenario lines classify as heading,
bullet and paragraph respectively. -/
theorem c6_line_classification :
    (∀ content : String,
      parse_content_sections content
        = (splitOnChar '\n' content.data).filterMap classify_line)
    ∧ (∀ l : List Char, pyStrip l = [] → classify_line l = none)
    ∧ (∀ l : List Char, pyStrip l ≠ [] → is_heading_line (pyStrip l) = true →
        classify_line l = some ⟨"heading", String.mk (pyStrip l)⟩)
    ∧ (∀ l : List Char, pyStrip l ≠ [] → is_heading_line (pyStrip l) = false →
        is_bullet_line (pyStrip l) = true →
        classify_line l = some ⟨"bullet", String.mk (pyStrip l)⟩)
    ∧ (∀ l : List Char, pyStrip l ≠ [] → is_heading_line (pyStrip l) = false →
        is_bullet_line (pyStrip l) = false →
        classify_line l = some ⟨"paragraph", String.mk (pyStrip l)⟩)
    ∧ classify_line "EXECUTIVE SUMMARY".data = some ⟨"heading", "EXECUTIVE SUMMARY"⟩
    ∧ classify_line "- Provide 24/7 support".data = some ⟨"bullet", "- Provide 24/7 support"⟩
    ∧ classify_line "We will deliver the project on time.".data
        = some ⟨"paragraph", "We will deliver the project on time."⟩ := by
  refine ⟨?_, ?_, ?_, ?_, ?_, by decide, by decide, by decide⟩
  · intro content
    unfold parse_content_sections
    rw [foldl_append_toList_eq_filterMap, List.nil_append]
  · intro l h
    simp [classify_line, h]
  · intro l h hh
    have he : (pyStrip l).isEmpty = false := List.isEmpty_eq_false.mpr h
    simp [classify_line, he, hh]
  · intro l h hh hb
    have he : (pyStrip l).isEmpty = false := List.isEmpty_eq_false.mpr h
    simp [classify_line, he, hh, hb]
  · intro l h hh hb
    have he : (pyStrip l).isEmpty = false := List.isEmpty_eq_false.mpr h
    simp [classify_line, he, hh, hb]

/-- Witness for C6: each classification case at a concrete line. -/
theorem c6_line_classification_witness :
    parse_content_sections "A\nB"
      = (splitOnChar '\n' ("A\nB" : String).data).filterMap classify_line
    ∧ classify_line "   ".data = none
    ∧ classify_line "PROJECT TIMELINE".data = some ⟨"heading", "PROJECT TIMELINE"⟩
    ∧ classify_line "* item".data = some ⟨"bullet", "* item"⟩
    ∧ classify_line "Just text".data = some ⟨"paragraph", "Just text"⟩ := by
  obtain ⟨h1, h2, h3, h4, h5, -⟩ := c6_line_classification
  refine ⟨h1 "A\nB", h2 _ (by decide), ?_, ?_, ?_⟩
  · exact (h3 "PROJECT TIMELINE".data (by decide) (by decide)).trans (by decide)
  · exact (h4 "* item".data (by decide) (by decide) (by decide)).trans (by decide)
  · exact (h5 "Just text".data (by decide) (by decide) (by decide)).trans (by decide)

end ProposalWriter
